import Mathlib

/-!
Shallow embedding of the Design-by-Contract engine in
`src/contracts/__init__.py` and the `div` example in `src/contracts/main.py`.

Python exceptions are modelled by the inductive type `PyError`; a Python
callable that may raise and may touch ambient mutable state is modelled as a
function `α → σ → Except PyError β × σ` (state passing makes predicate and
body side effects explicit, which Python permits).  The process-wide toggle
`_CONTRACT_CHECKING_ENABLED` is read at invocation time, so a wrapped
callable is modelled as a function of the toggle value at call time:
`call : Bool → α → σ → Except PyError β × σ`.  The `_contract_metadata`
attribute, which may be absent, is an `Option ContractMetadata` field.
-/

/-- The exception universe of the program: the `ContractViolation` hierarchy
of `__init__.py` (precondition / postcondition / invariant violations), the
two stub markers, Python's `ZeroDivisionError` (raised by `a // b` in
`main.py` when `b == 0`), and a catch-all for other exceptions.  Each carries
its message string (`str(e)` in Python). -/
inductive PyError where
  | preconditionViolation (msg : String)
  | postconditionViolation (msg : String)
  | invariantViolation (msg : String)
  | implementThis (msg : String)
  | dontImplementThis (msg : String)
  | zeroDivisionError (msg : String)
  | otherError (msg : String)
  deriving DecidableEq, Repr

/-- `str(e)`: the message carried by the exception. -/
def PyError.message : PyError → String
  | .preconditionViolation m => m
  | .postconditionViolation m => m
  | .invariantViolation m => m
  | .implementThis m => m
  | .dontImplementThis m => m
  | .zeroDivisionError m => m
  | .otherError m => m

/-- `isinstance(e, PreconditionViolation)`. -/
def PyError.isPreconditionViolation : PyError → Bool
  | .preconditionViolation _ => true
  | _ => false

/-- `isinstance(e, PostconditionViolation)`. -/
def PyError.isPostconditionViolation : PyError → Bool
  | .postconditionViolation _ => true
  | _ => false

/-- `isinstance(e, InvariantViolation)`. -/
def PyError.isInvariantViolation : PyError → Bool
  | .invariantViolation _ => true
  | _ => false

/-- `isinstance(e, ContractViolation)`: the three violation kinds share the
base class `ContractViolation`; the stub markers and other errors do not. -/
def PyError.isContractViolation : PyError → Bool
  | .preconditionViolation _ => true
  | .postconditionViolation _ => true
  | .invariantViolation _ => true
  | _ => false

/-- The `_contract_metadata` dictionary attached to a function: the three
single-valued description slots plus `specification`, the declared `raises`
list (names of exception types), and the three accumulating predicate lists.
Predicates are state-passing, as in the Python original where they may read
and mutate ambient state. -/
structure ContractMetadata (σ α β : Type) where
  specification : Option String := none
  pre_description : Option String := none
  post_description : Option String := none
  invariant_description : Option String := none
  raises : Option (List String) := none
  preconditions : List (α → σ → Except PyError Bool × σ) := []
  postconditions : List (β → α → σ → Except PyError Bool × σ) := []
  invariants : List (α → σ → Except PyError Bool × σ) := []

/-- A Python callable as the engine sees it: its `__name__` (preserved by
`functools.wraps`), its call behavior as a function of the toggle value at
invocation time, and its optional `_contract_metadata` attribute. -/
structure PyFunc (σ α β : Type) where
  name : String
  call : Bool → α → σ → Except PyError β × σ
  metadata : Option (ContractMetadata σ α β) := none

/-- An undecorated function: its body ignores the toggle and has no
metadata attribute yet. -/
def PyFunc.ofFn (name : String) (body : α → σ → Except PyError β × σ) :
    PyFunc σ α β :=
  { name := name, call := fun _ => body, metadata := none }

/-- The metadata carrier, defaulted to a fresh empty one when the attribute
is absent (the `if not hasattr(func, '_contract_metadata')` pattern). -/
def PyFunc.metadataD (f : PyFunc σ α β) : ContractMetadata σ α β :=
  f.metadata.getD {}

/-- Python's `str.lower()`, modelled characterwise (the tokens compared
against are ASCII, where this agrees with Python). -/
def pyLower (s : String) : String := String.mk (s.data.map Char.toLower)

/-- `os.environ.get('CONTRACTS_ENABLED', '').lower() in ('1', 'true', 'yes')`:
the toggle's initial value, computed once at process start from the
environment variable (`none` models an absent variable). -/
def initialContractCheckingEnabled (env : Option String) : Bool :=
  decide (pyLower (env.getD "") ∈ (["1", "true", "yes"] : List String))

/-- The `specification` decorator: ensures the metadata carrier exists,
overwrites its `specification` slot, returns the original callable. -/
def specification (description : String) (func : PyFunc σ α β) :
    PyFunc σ α β :=
  { func with metadata := some { func.metadataD with specification := some description } }

/-- The `pre_description` decorator. -/
def pre_description (description : String) (func : PyFunc σ α β) :
    PyFunc σ α β :=
  { func with metadata := some { func.metadataD with pre_description := some description } }

/-- The `post_description` decorator. -/
def post_description (description : String) (func : PyFunc σ α β) :
    PyFunc σ α β :=
  { func with metadata := some { func.metadataD with post_description := some description } }

/-- The `invariant_description` decorator. -/
def invariant_description (description : String) (func : PyFunc σ α β) :
    PyFunc σ α β :=
  { func with metadata := some { func.metadataD with invariant_description := some description } }

/-- The `raises` decorator: overwrites the whole declared list. -/
def raises (exceptions : List String) (func : PyFunc σ α β) :
    PyFunc σ α β :=
  { func with metadata := some { func.metadataD with raises := some exceptions } }

/-- The `precondition` decorator.  At decoration time it appends the
predicate to the `preconditions` list; the wrapper, when the toggle is
enabled at call time, evaluates the predicate, re-raises an exception from
the evaluation unchanged exactly when it is a `PreconditionViolation`, wraps
any other exception into a `PreconditionViolation`, raises on a false
result, and otherwise calls the original function. -/
def precondition (condition : α → σ → Except PyError Bool × σ)
    (func : PyFunc σ α β) : PyFunc σ α β :=
  let md := func.metadataD
  { name := func.name
    metadata := some { md with preconditions := md.preconditions ++ [condition] }
    call := fun enabled args s =>
      if enabled then
        match condition args s with
        | (.error e, s1) =>
          if e.isPreconditionViolation then (.error e, s1)
          else (.error (.preconditionViolation
            ("Error evaluating precondition for " ++ func.name ++ ": " ++ e.message)), s1)
        | (.ok false, s1) =>
          (.error (.preconditionViolation
            ("Precondition violated for function " ++ func.name)), s1)
        | (.ok true, s1) => func.call enabled args s1
      else func.call enabled args s }

/-- The `postcondition` decorator.  The wrapper always invokes the original
function first; if it raises, the error propagates with no predicate
evaluation.  When it returns and the toggle is enabled, the predicate is
evaluated on (result, args) under the same exception/false handling as
preconditions but producing `PostconditionViolation`. -/
def postcondition (condition : β → α → σ → Except PyError Bool × σ)
    (func : PyFunc σ α β) : PyFunc σ α β :=
  let md := func.metadataD
  { name := func.name
    metadata := some { md with postconditions := md.postconditions ++ [condition] }
    call := fun enabled args s =>
      match func.call enabled args s with
      | (.error e, s1) => (.error e, s1)
      | (.ok result, s1) =>
        if enabled then
          match condition result args s1 with
          | (.error e, s2) =>
            if e.isPostconditionViolation then (.error e, s2)
            else (.error (.postconditionViolation
              ("Error evaluating postcondition for " ++ func.name ++ ": " ++ e.message)), s2)
          | (.ok false, s2) =>
            (.error (.postconditionViolation
              ("Postcondition violated for function " ++ func.name)), s2)
          | (.ok true, s2) => (.ok result, s2)
        else (.ok result, s1) }

/-- The `invariant` decorator.  When enabled, the wrapper evaluates the
predicate on the arguments before the body (message "before execution"),
invokes the body only if the pre-check passes, propagates a body error with
no post-check, and evaluates the same predicate again after a normal return
(message "after execution"). -/
def invariant (condition : α → σ → Except PyError Bool × σ)
    (func : PyFunc σ α β) : PyFunc σ α β :=
  let md := func.metadataD
  { name := func.name
    metadata := some { md with invariants := md.invariants ++ [condition] }
    call := fun enabled args s =>
      if enabled then
        match condition args s with
        | (.error e, s1) =>
          if e.isInvariantViolation then (.error e, s1)
          else (.error (.invariantViolation
            ("Error evaluating invariant for " ++ func.name ++ ": " ++ e.message)), s1)
        | (.ok false, s1) =>
          (.error (.invariantViolation
            ("Invariant violated before execution of " ++ func.name)), s1)
        | (.ok true, s1) =>
          match func.call enabled args s1 with
          | (.error e, s2) => (.error e, s2)
          | (.ok result, s2) =>
            match condition args s2 with
            | (.error e, s3) =>
              if e.isInvariantViolation then (.error e, s3)
              else (.error (.invariantViolation
                ("Error evaluating invariant for " ++ func.name ++ ": " ++ e.message)), s3)
            | (.ok false, s3) =>
              (.error (.invariantViolation
                ("Invariant violated after execution of " ++ func.name)), s3)
            | (.ok true, s3) => (.ok result, s3)
      else func.call enabled args s }

/-- One decorator application, for reasoning about arbitrary stacks. -/
inductive Decor (σ α β : Type) where
  | pre (c : α → σ → Except PyError Bool × σ)
  | post (c : β → α → σ → Except PyError Bool × σ)
  | inv (c : α → σ → Except PyError Bool × σ)
  | spec (d : String)
  | preDesc (d : String)
  | postDesc (d : String)
  | invDesc (d : String)
  | decl (l : List String)

/-- Apply one decorator. -/
def applyDecor : Decor σ α β → PyFunc σ α β → PyFunc σ α β
  | .pre c, f => precondition c f
  | .post c, f => postcondition c f
  | .inv c, f => invariant c f
  | .spec d, f => specification d f
  | .preDesc d, f => pre_description d f
  | .postDesc d, f => post_description d f
  | .invDesc d, f => invariant_description d f
  | .decl l, f => raises l f

/-- Apply a list of decorators in application order (head applied first,
hence the head of the list is the decorator written closest to the `def`). -/
def applyDecors (ds : List (Decor σ α β)) (f : PyFunc σ α β) : PyFunc σ α β :=
  ds.foldl (fun g d => applyDecor d g) f

/-- The precondition predicates contributed by a decorator list, in order. -/
def presOf : List (Decor σ α β) → List (α → σ → Except PyError Bool × σ)
  | [] => []
  | .pre c :: ds => c :: presOf ds
  | _ :: ds => presOf ds

/-- The postcondition predicates contributed by a decorator list, in order. -/
def postsOf : List (Decor σ α β) → List (β → α → σ → Except PyError Bool × σ)
  | [] => []
  | .post c :: ds => c :: postsOf ds
  | _ :: ds => postsOf ds

/-- The invariant predicates contributed by a decorator list, in order. -/
def invsOf : List (Decor σ α β) → List (α → σ → Except PyError Bool × σ)
  | [] => []
  | .inv c :: ds => c :: invsOf ds
  | _ :: ds => invsOf ds

/-! The `div` example of `main.py`.  Its body `a // b` is Python floor
division, raising `ZeroDivisionError` when `b = 0`; the predicates are pure
(state-independent), so the state type is `Unit` for concrete runs but kept
generic here. -/

/-- `div_precondition` of `main.py`: `b != 0`. -/
def div_precondition : Int × Int → σ → Except PyError Bool × σ :=
  fun ab s => (.ok (decide (ab.2 ≠ 0)), s)

/-- `div_postcondition` of `main.py`: `result == a // b` (floor division). -/
def div_postcondition : Int → Int × Int → σ → Except PyError Bool × σ :=
  fun result ab s => (.ok (decide (result = Int.fdiv ab.1 ab.2)), s)

/-- The body of `div`: `return a // b`, which raises `ZeroDivisionError`
when the divisor is zero and otherwise floor-divides. -/
def divBody : Int × Int → σ → Except PyError Int × σ :=
  fun ab s =>
    (if ab.2 = 0 then .error (.zeroDivisionError "integer division or modulo by zero")
     else .ok (Int.fdiv ab.1 ab.2), s)

/-- `div` with its full decorator stack from `main.py`, decorators applied
bottom-up: `postcondition` first (innermost), then `precondition`, then the
three metadata-only decorators. -/
def div : PyFunc σ (Int × Int) Int :=
  specification "Divides two integers and returns the result"
    (pre_description "Both arguments must be integers, divisor cannot be zero"
      (post_description "Returns the integer division of a by b"
        (precondition div_precondition
          (postcondition div_postcondition (PyFunc.ofFn "div" divBody)))))

/-! Helper lemmas about one decorator application. -/

/-- Each decorator contributes its predicate (if any) at the end of the
corresponding metadata list and leaves the precondition list of the shared
carrier otherwise unchanged. -/
theorem applyDecor_preconditions (d : Decor σ α β) (f : PyFunc σ α β) :
    (applyDecor d f).metadataD.preconditions
      = f.metadataD.preconditions ++ presOf [d] := by
  cases d <;>
    simp [applyDecor, precondition, postcondition, invariant, specification,
      pre_description, post_description, invariant_description, raises,
      PyFunc.metadataD, presOf]

/-- Postcondition analogue of `applyDecor_preconditions`. -/
theorem applyDecor_postconditions (d : Decor σ α β) (f : PyFunc σ α β) :
    (applyDecor d f).metadataD.postconditions
      = f.metadataD.postconditions ++ postsOf [d] := by
  cases d <;>
    simp [applyDecor, precondition, postcondition, invariant, specification,
      pre_description, post_description, invariant_description, raises,
      PyFunc.metadataD, postsOf]

/-- Invariant analogue of `applyDecor_preconditions`. -/
theorem applyDecor_invariants (d : Decor σ α β) (f : PyFunc σ α β) :
    (applyDecor d f).metadataD.invariants
      = f.metadataD.invariants ++ invsOf [d] := by
  cases d <;>
    simp [applyDecor, precondition, postcondition, invariant, specification,
      pre_description, post_description, invariant_description, raises,
      PyFunc.metadataD, invsOf]

/-- A decorator stack accumulates precondition predicates in application
order onto the shared carrier. -/
theorem applyDecors_preconditions (ds : List (Decor σ α β)) (f : PyFunc σ α β) :
    (applyDecors ds f).metadataD.preconditions
      = f.metadataD.preconditions ++ presOf ds := by
  induction ds generalizing f with
  | nil => simp [applyDecors, presOf]
  | cons d ds ih =>
    have h1 : applyDecors (d :: ds) f = applyDecors ds (applyDecor d f) := rfl
    rw [h1, ih, applyDecor_preconditions]
    cases d <;> simp [presOf]

/-- Postcondition analogue of `applyDecors_preconditions`. -/
theorem applyDecors_postconditions (ds : List (Decor σ α β)) (f : PyFunc σ α β) :
    (applyDecors ds f).metadataD.postconditions
      = f.metadataD.postconditions ++ postsOf ds := by
  induction ds generalizing f with
  | nil => simp [applyDecors, postsOf]
  | cons d ds ih =>
    have h1 : applyDecors (d :: ds) f = applyDecors ds (applyDecor d f) := rfl
    rw [h1, ih, applyDecor_postconditions]
    cases d <;> simp [postsOf]

/-- Invariant analogue of `applyDecors_preconditions`. -/
theorem applyDecors_invariants (ds : List (Decor σ α β)) (f : PyFunc σ α β) :
    (applyDecors ds f).metadataD.invariants
      = f.metadataD.invariants ++ invsOf ds := by
  induction ds generalizing f with
  | nil => simp [applyDecors, invsOf]
  | cons d ds ih =>
    have h1 : applyDecors (d :: ds) f = applyDecors ds (applyDecor d f) := rfl
    rw [h1, ih, applyDecor_invariants]
    cases d <;> simp [invsOf]

/-- With the toggle disabled at call time, a single decorator layer is a
no-op passthrough to the inner callable. -/
theorem applyDecor_call_disabled (d : Decor σ α β) (f : PyFunc σ α β)
    (args : α) (s : σ) :
    (applyDecor d f).call false args s = f.call false args s := by
  cases d with
  | pre c => simp [applyDecor, precondition]
  | post c =>
    rcases h : f.call false args s with ⟨r, s1⟩
    cases r <;> simp [applyDecor, postcondition, h]
  | inv c => simp [applyDecor, invariant]
  | spec d => rfl
  | preDesc d => rfl
  | postDesc d => rfl
  | invDesc d => rfl
  | decl l => rfl

/-- With the toggle disabled at call time, a whole decorator stack is a
no-op passthrough to the inner callable. -/
theorem applyDecors_call_disabled (ds : List (Decor σ α β)) (f : PyFunc σ α β)
    (args : α) (s : σ) :
    (applyDecors ds f).call false args s = f.call false args s := by
  induction ds generalizing f with
  | nil => rfl
  | cons d ds ih =>
    have h1 : applyDecors (d :: ds) f = applyDecors ds (applyDecor d f) := rfl
    rw [h1, ih, applyDecor_call_disabled]

/-! Shared concrete example components used to instantiate the theorems. -/

/-- A pure identity body on `Int` with trivial state. -/
def idBody : Int → Unit → Except PyError Int × Unit := fun a u => (.ok a, u)

/-- A body that always raises a non-contract error. -/
def boomBody : Int → Unit → Except PyError Int × Unit :=
  fun _ u => (.error (.otherError "boom"), u)

/-- A predicate that always holds. -/
def predTrue : Int → Unit → Except PyError Bool × Unit := fun _ u => (.ok true, u)

/-- A predicate that always fails. -/
def predFalse : Int → Unit → Except PyError Bool × Unit := fun _ u => (.ok false, u)

/-- A predicate whose evaluation raises a `PreconditionViolation` directly. -/
def raisePreOwn : Int → Unit → Except PyError Bool × Unit :=
  fun _ u => (.error (.preconditionViolation "own"), u)

/-- A predicate whose evaluation raises a `PostconditionViolation` (a
contract violation of a different kind than a precondition wrapper owns). -/
def raisePostTyped : Int → Unit → Except PyError Bool × Unit :=
  fun _ u => (.error (.postconditionViolation "typed"), u)

/-- A predicate whose evaluation raises an `InvariantViolation`. -/
def raiseInvOwn : Int → Unit → Except PyError Bool × Unit :=
  fun _ u => (.error (.invariantViolation "own"), u)

/-- A predicate whose evaluation raises a non-contract error. -/
def raiseOther : Int → Unit → Except PyError Bool × Unit :=
  fun _ u => (.error (.otherError "boom"), u)

/-- A result predicate that always holds. -/
def postPredTrue : Int → Int → Unit → Except PyError Bool × Unit :=
  fun _ _ u => (.ok true, u)

/-- A result predicate that always fails. -/
def postPredFalse : Int → Int → Unit → Except PyError Bool × Unit :=
  fun _ _ u => (.ok false, u)

/-- A result predicate whose evaluation raises a `PostconditionViolation`. -/
def postRaiseOwn : Int → Int → Unit → Except PyError Bool × Unit :=
  fun _ _ u => (.error (.postconditionViolation "own"), u)

/-- A result predicate whose evaluation raises a `PreconditionViolation` (a
contract violation of a different kind than a postcondition wrapper owns). -/
def postRaiseTyped : Int → Int → Unit → Except PyError Bool × Unit :=
  fun _ _ u => (.error (.preconditionViolation "typed"), u)

/-- A state-reading predicate over a counter: holds exactly when the
counter is zero. -/
def counterPred : Int → Nat → Except PyError Bool × Nat :=
  fun _ n => (.ok (decide (n = 0)), n)

/-- A body that increments the counter (an externally visible side effect). -/
def tickBody : Int → Nat → Except PyError Int × Nat := fun a n => (.ok a, n + 1)

/-- A body over the counter state that raises a non-contract error. -/
def bangBody : Int → Nat → Except PyError Int × Nat :=
  fun _ n => (.error (.otherError "bang"), n)

/-- A pure body over the counter state. -/
def quietBody : Int → Nat → Except PyError Int × Nat := fun a n => (.ok a, n)

/-- Claim C3: every sequence of decorator applications — condition wrappers
interleaved with metadata-only decorators, in any order — acts on one shared
metadata carrier: the three condition lists of the final carrier extend
those of the original function with exactly the predicates of the stack, in
application order.  In particular a precondition applied after a
postcondition does not lose the postcondition's entry, two separate
precondition applications yield a `preconditions` list of length 2 in
application order, and an intervening metadata-only decorator (here
`specification`) neither disturbs the lists nor has its own slot lost. -/
theorem decorator_stack_shares_one_carrier {σ α β : Type} :
    (∀ (ds : List (Decor σ α β)) (f : PyFunc σ α β),
      (applyDecors ds f).metadataD.preconditions
          = f.metadataD.preconditions ++ presOf ds
        ∧ (applyDecors ds f).metadataD.postconditions
          = f.metadataD.postconditions ++ postsOf ds
        ∧ (applyDecors ds f).metadataD.invariants
          = f.metadataD.invariants ++ invsOf ds)
    ∧ (∀ (nm sdesc : String) (body : α → σ → Except PyError β × σ)
        (P1 P2 : α → σ → Except PyError Bool × σ)
        (Q : β → α → σ → Except PyError Bool × σ),
      (applyDecors [.post Q, .pre P1, .spec sdesc, .pre P2]
          (PyFunc.ofFn nm body)).metadataD.preconditions = [P1, P2]
        ∧ (applyDecors [.post Q, .pre P1, .spec sdesc, .pre P2]
            (PyFunc.ofFn nm body)).metadataD.postconditions = [Q]
        ∧ (applyDecors [.post Q, .pre P1, .spec sdesc, .pre P2]
            (PyFunc.ofFn nm body)).metadataD.preconditions.length = 2
        ∧ (applyDecors [.post Q, .pre P1, .spec sdesc, .pre P2]
            (PyFunc.ofFn nm body)).metadataD.specification = some sdesc) := by
  refine ⟨fun ds f => ⟨applyDecors_preconditions ds f,
    applyDecors_postconditions ds f, applyDecors_invariants ds f⟩,
    fun _ _ _ _ _ _ => ⟨rfl, rfl, rfl, rfl⟩⟩

/-- Claim C4: the toggle is consulted at invocation time only.  Whatever
stack of condition wrappers and metadata decorators was applied, a call made
while verification is disabled is extensionally identical to a call of the
original body: same result, same raised error, and hence no engine-raised
`ContractViolation` can be observed, regardless of predicate outcomes.  The
decorators take no toggle input at decoration time in the embedding, exactly
as in the code, so the toggle state at decoration time cannot matter. -/
theorem disabled_toggle_is_full_bypass {σ α β : Type} :
    ∀ (ds : List (Decor σ α β)) (nm : String)
      (body : α → σ → Except PyError β × σ) (args : α) (s : σ),
      (applyDecors ds (PyFunc.ofFn nm body)).call false args s = body args s := by
  intro ds nm body args s
  rw [applyDecors_call_disabled]
  rfl

/-- Claim C7: the `div` example end to end.  With verification enabled,
`div(10, 0)` raises `PreconditionViolation` and `div(10, 2)` returns `5`
with no violation; with verification disabled, `div(10, 0)` raises the
underlying `ZeroDivisionError` instead of a `PreconditionViolation`. -/
theorem div_example_end_to_end :
    div.call true (10, 0) ()
        = (.error (.preconditionViolation "Precondition violated for function div"), ())
      ∧ div.call true (10, 2) () = (.ok 5, ())
      ∧ div.call false (10, 0) ()
        = (.error (.zeroDivisionError "integer division or modulo by zero"), ()) :=
  ⟨rfl, rfl, rfl⟩

/-- Claim C8: the toggle's initial value, computed once from the
configuration flag, is enabled exactly when the flag's value lowercases to
one of the tokens `1`, `true`, `yes`; any other value, and absence of the
flag, yields disabled. -/
theorem initial_toggle_seeding :
    (∀ s : String, initialContractCheckingEnabled (some s) = true ↔
        (pyLower s = "1" ∨ pyLower s = "true" ∨ pyLower s = "yes"))
      ∧ initialContractCheckingEnabled none = false := by
  constructor
  · intro s
    simp [initialContractCheckingEnabled]
  · decide

/-- Claim C5: for a function wrapped with a postcondition, the original
function is always invoked first, so the postcondition cannot prevent the
call.  If the original raises, that error propagates immediately — for any
result predicate and either toggle state — and no `PostconditionViolation`
occurs.  If the original returns normally with verification enabled and the
predicate is false on (result, args), a `PostconditionViolation` is raised
only after the body has executed (the body's state effects, threaded
through `s1`, are already in place); if the predicate holds, the body's
result is returned. -/
theorem postcondition_wrapper_behavior {σ α β : Type} :
    (∀ (f : PyFunc σ α β) (Q : β → α → σ → Except PyError Bool × σ)
      (enabled : Bool) (args : α) (s : σ) (e : PyError) (s1 : σ),
      f.call enabled args s = (.error e, s1) →
      (postcondition Q f).call enabled args s = (.error e, s1))
    ∧ (∀ (f : PyFunc σ α β) (Q : β → α → σ → Except PyError Bool × σ)
        (args : α) (s : σ) (r : β) (s1 s2 : σ),
      f.call true args s = (.ok r, s1) → Q r args s1 = (.ok false, s2) →
      (postcondition Q f).call true args s
        = (.error (.postconditionViolation
            ("Postcondition violated for function " ++ f.name)), s2))
    ∧ (∀ (f : PyFunc σ α β) (Q : β → α → σ → Except PyError Bool × σ)
        (args : α) (s : σ) (r : β) (s1 s2 : σ),
      f.call true args s = (.ok r, s1) → Q r args s1 = (.ok true, s2) →
      (postcondition Q f).call true args s = (.ok r, s2)) := by
  refine ⟨?_, ?_, ?_⟩
  · intro f Q enabled args s e s1 h
    simp [postcondition, h]
  · intro f Q args s r s1 s2 h hq
    simp [postcondition, h, hq]
  · intro f Q args s r s1 s2 h hq
    simp [postcondition, h, hq]

/-- Witness for `postcondition_wrapper_behavior` at concrete inputs: a
raising body propagates its error past an always-true predicate; a false
predicate after a normal return yields the violation; a true predicate
passes the result through. -/
theorem postcondition_wrapper_behavior_witness :
    (postcondition postPredTrue (PyFunc.ofFn "f" boomBody)).call true 0 ()
        = (.error (.otherError "boom"), ())
      ∧ (postcondition postPredFalse (PyFunc.ofFn "f" idBody)).call true 0 ()
        = (.error (.postconditionViolation
            ("Postcondition violated for function " ++ "f")), ())
      ∧ (postcondition postPredTrue (PyFunc.ofFn "f" idBody)).call true 0 ()
        = (.ok 0, ()) :=
  ⟨postcondition_wrapper_behavior.1 _ _ _ _ _ _ _ rfl,
    postcondition_wrapper_behavior.2.1 _ _ _ _ _ _ _ rfl rfl,
    postcondition_wrapper_behavior.2.2 _ _ _ _ _ _ _ rfl rfl⟩

/-- Claim C6: for a function wrapped with an invariant and verification
enabled, the predicate is checked on the arguments before and after the
body.  A failing pre-check raises `InvariantViolation` with the "before
execution" message and the body is never invoked: the conclusion holds for
every body `f` and the threaded state is the predicate's alone, which also
settles the both-would-fail case (only the pre-check is observed).  If the
body raises, its error propagates with no post-check.  A failing post-check
after a normal return raises `InvariantViolation` with the "after
execution" message; a passing one returns the result. -/
theorem invariant_wrapper_behavior {σ α β : Type} :
    (∀ (f : PyFunc σ α β) (P : α → σ → Except PyError Bool × σ)
      (args : α) (s s1 : σ),
      P args s = (.ok false, s1) →
      (invariant P f).call true args s
        = (.error (.invariantViolation
            ("Invariant violated before execution of " ++ f.name)), s1))
    ∧ (∀ (f : PyFunc σ α β) (P : α → σ → Except PyError Bool × σ)
        (args : α) (s s1 : σ) (e : PyError) (s2 : σ),
      P args s = (.ok true, s1) → f.call true args s1 = (.error e, s2) →
      (invariant P f).call true args s = (.error e, s2))
    ∧ (∀ (f : PyFunc σ α β) (P : α → σ → Except PyError Bool × σ)
        (args : α) (s s1 : σ) (r : β) (s2 s3 : σ),
      P args s = (.ok true, s1) → f.call true args s1 = (.ok r, s2) →
      P args s2 = (.ok false, s3) →
      (invariant P f).call true args s
        = (.error (.invariantViolation
            ("Invariant violated after execution of " ++ f.name)), s3))
    ∧ (∀ (f : PyFunc σ α β) (P : α → σ → Except PyError Bool × σ)
        (args : α) (s s1 : σ) (r : β) (s2 s3 : σ),
      P args s = (.ok true, s1) → f.call true args s1 = (.ok r, s2) →
      P args s2 = (.ok true, s3) →
      (invariant P f).call true args s = (.ok r, s3)) := by
  refine ⟨?_, ?_, ?_, ?_⟩
  · intro f P args s s1 hp
    simp [invariant, hp]
  · intro f P args s s1 e s2 hp hf
    simp [invariant, hp, hf]
  · intro f P args s s1 r s2 s3 hp hf hq
    simp [invariant, hp, hf, hq]
  · intro f P args s s1 r s2 s3 hp hf hq
    simp [invariant, hp, hf, hq]

/-- Witness for `invariant_wrapper_behavior` over a counter state: the
predicate holds exactly at counter 0.  At counter 1 the pre-check fails
before a body that would tick the counter; at counter 0 a raising body
propagates; the ticking body makes the post-check fail with the "after
execution" message; a quiet body passes both checks. -/
theorem invariant_wrapper_behavior_witness :
    (invariant counterPred (PyFunc.ofFn "g" tickBody)).call true 7 1
        = (.error (.invariantViolation
            ("Invariant violated before execution of " ++ "g")), 1)
      ∧ (invariant counterPred (PyFunc.ofFn "g" bangBody)).call true 7 0
        = (.error (.otherError "bang"), 0)
      ∧ (invariant counterPred (PyFunc.ofFn "g" tickBody)).call true 7 0
        = (.error (.invariantViolation
            ("Invariant violated after execution of " ++ "g")), 1)
      ∧ (invariant counterPred (PyFunc.ofFn "g" quietBody)).call true 7 0
        = (.ok 7, 0) :=
  ⟨invariant_wrapper_behavior.1 _ _ _ _ _ rfl,
    invariant_wrapper_behavior.2.1 _ _ _ _ _ _ _ rfl rfl,
    invariant_wrapper_behavior.2.2.1 _ _ _ _ _ _ _ _ rfl rfl rfl,
    invariant_wrapper_behavior.2.2.2 _ _ _ _ _ _ _ _ rfl rfl rfl⟩

/-- Claim C10: the invariant wrapper applies the same predicate to the same
arguments before and after the body, so for a pure predicate — one that
neither reads nor writes the ambient state — a passing pre-check guarantees
a passing post-check: the call returns the body's result and the "after
execution" branch is never taken.  (The stateful witness of
`invariant_wrapper_behavior` shows a post-execution violation does arise
once the predicate reads state the body mutates.) -/
theorem pure_invariant_post_check_passes {σ α β : Type} :
    ∀ (p : α → Except PyError Bool) (f : PyFunc σ α β) (args : α) (s : σ)
      (r : β) (s2 : σ),
      p args = .ok true →
      f.call true args s = (.ok r, s2) →
      (invariant (fun a t => (p a, t)) f).call true args s = (.ok r, s2) := by
  intro p f args s r s2 hp hf
  simp [invariant, hp, hf]

/-- Witness for `pure_invariant_post_check_passes`: an always-true pure
predicate around a state-mutating body still yields the plain result. -/
theorem pure_invariant_post_check_passes_witness :
    (invariant (fun a t => ((fun _ : Int => (.ok true : Except PyError Bool)) a, t))
        (PyFunc.ofFn "g" tickBody)).call true 7 0 = (.ok 7, 1) :=
  pure_invariant_post_check_passes _ _ _ _ _ _ rfl rfl

/-- Claim C9: each metadata-only decorator returns the original callable —
same `call` behavior on every toggle state and input, same name — and
rewrites exactly its own slot of the carrier (creating the carrier if
absent), leaving every other field as it was: the full record equation
shows the new carrier is the old one with only the owned slot overwritten,
which also gives last-writer-wins for the single-valued slots and
whole-list replacement for `raises`. -/
theorem metadata_decorators_only_touch_their_slot {σ α β : Type} :
    (∀ (f : PyFunc σ α β) (d : String),
      (specification d f).call = f.call ∧ (specification d f).name = f.name
        ∧ (specification d f).metadata
          = some { f.metadataD with specification := some d })
    ∧ (∀ (f : PyFunc σ α β) (d : String),
      (pre_description d f).call = f.call ∧ (pre_description d f).name = f.name
        ∧ (pre_description d f).metadata
          = some { f.metadataD with pre_description := some d })
    ∧ (∀ (f : PyFunc σ α β) (d : String),
      (post_description d f).call = f.call ∧ (post_description d f).name = f.name
        ∧ (post_description d f).metadata
          = some { f.metadataD with post_description := some d })
    ∧ (∀ (f : PyFunc σ α β) (d : String),
      (invariant_description d f).call = f.call
        ∧ (invariant_description d f).name = f.name
        ∧ (invariant_description d f).metadata
          = some { f.metadataD with invariant_description := some d })
    ∧ (∀ (f : PyFunc σ α β) (l : List String),
      (raises l f).call = f.call ∧ (raises l f).name = f.name
        ∧ (raises l f).metadata = some { f.metadataD with raises := some l })
    ∧ (∀ (f : PyFunc σ α β) (d1 d2 : String),
      (specification d2 (specification d1 f)).metadataD.specification = some d2)
    ∧ (∀ (f : PyFunc σ α β) (l1 l2 : List String),
      (raises l2 (raises l1 f)).metadataD.raises = some l2) :=
  ⟨fun _ _ => ⟨rfl, rfl, rfl⟩, fun _ _ => ⟨rfl, rfl, rfl⟩,
    fun _ _ => ⟨rfl, rfl, rfl⟩, fun _ _ => ⟨rfl, rfl, rfl⟩,
    fun _ _ => ⟨rfl, rfl, rfl⟩, fun _ _ _ => rfl, fun _ _ _ => rfl⟩

/-- Claim C1 counterexample: a precondition predicate that raises a
`PostconditionViolation` — a Violation-kind error, but not the wrapper's
own kind — is not propagated unchanged: the wrapper re-wraps it into a
`PreconditionViolation` with the evaluation-error message. -/
theorem other_violation_kind_is_rewrapped :
    (precondition raisePostTyped (PyFunc.ofFn "f" idBody)).call true 0 ()
        = (.error (.preconditionViolation
            ("Error evaluating precondition for " ++ "f" ++ ": " ++ "typed")), ())
      ∧ (PyError.postconditionViolation "typed").isContractViolation = true
      ∧ (precondition raisePostTyped (PyFunc.ofFn "f" idBody)).call true 0 ()
        ≠ (.error (.postconditionViolation "typed"), ()) := by
  refine ⟨rfl, rfl, ?_⟩
  intro h
  simp [precondition, raisePostTyped, PyFunc.ofFn,
    PyError.isPreconditionViolation] at h

/-- Claim C1 as amended: a condition wrapper propagates an error raised by
predicate evaluation unchanged exactly when it is the wrapper's own
violation kind; any other error — including a contract violation of a
different kind — is re-wrapped into the wrapper's violation kind, with the
evaluation-error message.  Stated for the precondition and invariant
pre-checks and for the postcondition check after a normal return. -/
theorem condition_wrappers_propagate_only_own_kind {σ α β : Type} :
    (∀ (f : PyFunc σ α β) (P : α → σ → Except PyError Bool × σ)
      (args : α) (s : σ) (e : PyError) (s1 : σ),
      P args s = (.error e, s1) → e.isPreconditionViolation = true →
      (precondition P f).call true args s = (.error e, s1))
    ∧ (∀ (f : PyFunc σ α β) (P : α → σ → Except PyError Bool × σ)
        (args : α) (s : σ) (e : PyError) (s1 : σ),
      P args s = (.error e, s1) → e.isPreconditionViolation = false →
      (precondition P f).call true args s
        = (.error (.preconditionViolation
            ("Error evaluating precondition for " ++ f.name ++ ": " ++ e.message)), s1))
    ∧ (∀ (f : PyFunc σ α β) (Q : β → α → σ → Except PyError Bool × σ)
        (args : α) (s : σ) (r : β) (s1 : σ) (e : PyError) (s2 : σ),
      f.call true args s = (.ok r, s1) → Q r args s1 = (.error e, s2) →
      e.isPostconditionViolation = true →
      (postcondition Q f).call true args s = (.error e, s2))
    ∧ (∀ (f : PyFunc σ α β) (Q : β → α → σ → Except PyError Bool × σ)
        (args : α) (s : σ) (r : β) (s1 : σ) (e : PyError) (s2 : σ),
      f.call true args s = (.ok r, s1) → Q r args s1 = (.error e, s2) →
      e.isPostconditionViolation = false →
      (postcondition Q f).call true args s
        = (.error (.postconditionViolation
            ("Error evaluating postcondition for " ++ f.name ++ ": " ++ e.message)), s2))
    ∧ (∀ (f : PyFunc σ α β) (P : α → σ → Except PyError Bool × σ)
        (args : α) (s : σ) (e : PyError) (s1 : σ),
      P args s = (.error e, s1) → e.isInvariantViolation = true →
      (invariant P f).call true args s = (.error e, s1))
    ∧ (∀ (f : PyFunc σ α β) (P : α → σ → Except PyError Bool × σ)
        (args : α) (s : σ) (e : PyError) (s1 : σ),
      P args s = (.error e, s1) → e.isInvariantViolation = false →
      (invariant P f).call true args s
        = (.error (.invariantViolation
            ("Error evaluating invariant for " ++ f.name ++ ": " ++ e.message)), s1)) := by
  refine ⟨?_, ?_, ?_, ?_, ?_, ?_⟩
  · intro f P args s e s1 hp he
    simp [precondition, hp, he]
  · intro f P args s e s1 hp he
    simp [precondition, hp, he]
  · intro f Q args s r s1 e s2 hf hq he
    simp [postcondition, hf, hq, he]
  · intro f Q args s r s1 e s2 hf hq he
    simp [postcondition, hf, hq, he]
  · intro f P args s e s1 hp he
    simp [invariant, hp, he]
  · intro f P args s e s1 hp he
    simp [invariant, hp, he]

/-- Witness for `condition_wrappers_propagate_only_own_kind`: each wrapper
propagates a raised violation of its own kind unchanged and re-wraps one of
another kind. -/
theorem condition_wrappers_propagate_only_own_kind_witness :
    (precondition raisePreOwn (PyFunc.ofFn "f" idBody)).call true 0 ()
        = (.error (.preconditionViolation "own"), ())
      ∧ (precondition raisePostTyped (PyFunc.ofFn "f" idBody)).call true 0 ()
        = (.error (.preconditionViolation
            ("Error evaluating precondition for " ++ "f" ++ ": " ++ "typed")), ())
      ∧ (postcondition postRaiseOwn (PyFunc.ofFn "f" idBody)).call true 0 ()
        = (.error (.postconditionViolation "own"), ())
      ∧ (postcondition postRaiseTyped (PyFunc.ofFn "f" idBody)).call true 0 ()
        = (.error (.postconditionViolation
            ("Error evaluating postcondition for " ++ "f" ++ ": " ++ "typed")), ())
      ∧ (invariant raiseInvOwn (PyFunc.ofFn "f" idBody)).call true 0 ()
        = (.error (.invariantViolation "own"), ())
      ∧ (invariant raiseOther (PyFunc.ofFn "f" idBody)).call true 0 ()
        = (.error (.invariantViolation
            ("Error evaluating invariant for " ++ "f" ++ ": " ++ "boom")), ()) :=
  ⟨condition_wrappers_propagate_only_own_kind.1 (PyFunc.ofFn "f" idBody)
      raisePreOwn 0 () (.preconditionViolation "own") () rfl rfl,
    condition_wrappers_propagate_only_own_kind.2.1 (PyFunc.ofFn "f" idBody)
      raisePostTyped 0 () (.postconditionViolation "typed") () rfl rfl,
    condition_wrappers_propagate_only_own_kind.2.2.1 (PyFunc.ofFn "f" idBody)
      postRaiseOwn 0 () 0 () (.postconditionViolation "own") () rfl rfl rfl,
    condition_wrappers_propagate_only_own_kind.2.2.2.1 (PyFunc.ofFn "f" idBody)
      postRaiseTyped 0 () 0 () (.preconditionViolation "typed") () rfl rfl rfl,
    condition_wrappers_propagate_only_own_kind.2.2.2.2.1 (PyFunc.ofFn "f" idBody)
      raiseInvOwn 0 () (.invariantViolation "own") () rfl rfl,
    condition_wrappers_propagate_only_own_kind.2.2.2.2.2 (PyFunc.ofFn "f" idBody)
      raiseOther 0 () (.otherError "boom") () rfl rfl⟩

/-- Claim C2 counterexample: stack P1 (applied first, hence the inner
wrapper) and P2 (applied second, hence the outer wrapper).  With P1
constantly false and P2 raising a non-contract error, the call reports the
evaluation error of P2 — so P2 is evaluated even though P1 is false, and
the outcome is not the plain violation that checking P1 first would
produce: the predicates are not evaluated in application order. -/
theorem stacked_preconditions_claimed_order_fails :
    (precondition raiseOther (precondition predFalse
        (PyFunc.ofFn "f" idBody))).call true 0 ()
        = (.error (.preconditionViolation
            ("Error evaluating precondition for " ++ "f" ++ ": " ++ "boom")), ())
      ∧ (precondition raiseOther (precondition predFalse
          (PyFunc.ofFn "f" idBody))).call true 0 ()
        ≠ (.error (.preconditionViolation
            ("Precondition violated for function " ++ "f")), ()) := by
  refine ⟨rfl, ?_⟩
  intro h
  simp [precondition, raiseOther, predFalse, PyFunc.ofFn,
    PyError.isPreconditionViolation, PyError.message] at h

/-- Claim C2 as amended: with two stacked preconditions the predicates are
evaluated in reverse application order — the second-applied P2, being the
outer wrapper, is checked first — short-circuiting on the first violation:
if P2 is false a `PreconditionViolation` is raised and P1 never influences
the outcome or the state; if P2 holds and P1 is false the violation is
raised before the body; if both hold the inner call proceeds. -/
theorem stacked_preconditions_outer_checked_first {σ α β : Type} :
    (∀ (f : PyFunc σ α β) (P1 P2 : α → σ → Except PyError Bool × σ)
      (args : α) (s s1 : σ),
      P2 args s = (.ok false, s1) →
      (precondition P2 (precondition P1 f)).call true args s
        = (.error (.preconditionViolation
            ("Precondition violated for function " ++ f.name)), s1))
    ∧ (∀ (f : PyFunc σ α β) (P1 P2 : α → σ → Except PyError Bool × σ)
        (args : α) (s s1 s2 : σ),
      P2 args s = (.ok true, s1) → P1 args s1 = (.ok false, s2) →
      (precondition P2 (precondition P1 f)).call true args s
        = (.error (.preconditionViolation
            ("Precondition violated for function " ++ f.name)), s2))
    ∧ (∀ (f : PyFunc σ α β) (P1 P2 : α → σ → Except PyError Bool × σ)
        (args : α) (s s1 s2 : σ),
      P2 args s = (.ok true, s1) → P1 args s1 = (.ok true, s2) →
      (precondition P2 (precondition P1 f)).call true args s
        = f.call true args s2) := by
  refine ⟨?_, ?_, ?_⟩
  · intro f P1 P2 args s s1 h2
    simp [precondition, h2]
  · intro f P1 P2 args s s1 s2 h2 h1
    simp [precondition, h2, h1]
  · intro f P1 P2 args s s1 s2 h2 h1
    simp [precondition, h2, h1]

/-- Witness for `stacked_preconditions_outer_checked_first`: a false outer
predicate short-circuits past an inner predicate that would raise; a true
outer with false inner raises; two true predicates reach the body. -/
theorem stacked_preconditions_outer_checked_first_witness :
    (precondition predFalse (precondition raiseOther
        (PyFunc.ofFn "f" idBody))).call true 0 ()
        = (.error (.preconditionViolation
            ("Precondition violated for function " ++ "f")), ())
      ∧ (precondition predTrue (precondition predFalse
          (PyFunc.ofFn "f" idBody))).call true 0 ()
        = (.error (.preconditionViolation
            ("Precondition violated for function " ++ "f")), ())
      ∧ (precondition predTrue (precondition predTrue
          (PyFunc.ofFn "f" idBody))).call true 0 () = (.ok 0, ()) :=
  ⟨stacked_preconditions_outer_checked_first.1 (PyFunc.ofFn "f" idBody)
      raiseOther predFalse 0 () () rfl,
    stacked_preconditions_outer_checked_first.2.1 (PyFunc.ofFn "f" idBody)
      predFalse predTrue 0 () () () rfl rfl,
    stacked_preconditions_outer_checked_first.2.2 (PyFunc.ofFn "f" idBody)
      predTrue predTrue 0 () () () rfl rfl⟩
